import Mathlib

/-!
Shallow embedding of the progression / access-control engine of the
community bot (src/integrations/discord-bot/bot.py), together with proofs
settling the specification claims about it.

Conventions of the embedding:
* timestamps are natural numbers of whole seconds (the source uses UTC
  datetimes); a Python timedelta between two such instants has
  total elapsed seconds d and its .seconds attribute is d % 86400;
* calendar dates (ISO strings in the source) are modelled as String;
* the per-participant dict entries become the structure Record;
* the global user_data defaultdict becomes an association list together
  with the defaultdict access discipline (touch / getRec / setRec);
* each command handler returns, besides its store effect, a Bool flag
  recording whether save_data() was invoked on that path.
-/

namespace XiuHe

/-- Source constant COMPUTE_PER_MESSAGE (bot.py line 29). -/
def COMPUTE_PER_MESSAGE : Nat := 5

/-- Source constant COMPUTE_COOLDOWN, in seconds (bot.py line 30). -/
def COMPUTE_COOLDOWN : Nat := 60

/-- Source constant LEVEL_MULTIPLIER (bot.py line 31). -/
def LEVEL_MULTIPLIER : Nat := 100

/-- One participant entry of the user_data mapping (bot.py line 62):
compute points, level, timestamp of the last accepted message, lifetime
message count, and the date of the last daily sync (absent until the
first /sync, hence Option). -/
structure Record where
  compute : Nat
  level : Nat
  last_time : Option Nat
  messages : Nat
  last_sync : Option String
deriving Repr, DecidableEq

/-- The defaultdict default entry (bot.py line 62). -/
def defaultRecord : Record :=
  { compute := 0, level := 1, last_time := none, messages := 0, last_sync := none }

/-- Whether the character list sub occurs as a prefix of s
(helper for modelling the Python substring operator). -/
def startsWithL : List Char → List Char → Bool
  | _, [] => true
  | [], _ :: _ => false
  | c :: s, d :: t => c = d && startsWithL s t

/-- Whether sub occurs as a contiguous substring of s: the Python
expression sub in s on strings. -/
def containsSubL : List Char → List Char → Bool
  | [], sub => sub.isEmpty
  | c :: s, sub => startsWithL (c :: s) sub || containsSubL s sub

/-- Source constant BANNED_WORDS (bot.py line 44). -/
def BANNED_WORDS : List String := ["广告词1", "广告词2"]

/-- Python message.content.lower() as a character list; Char.toLower is
ASCII-only but the banned terms contain no cased letters, so the match is
unaffected. -/
def lowerStr (s : String) : List Char := s.data.map Char.toLower

/-- The content-filter veto of on_message (bot.py line 179):
any(word in message.content.lower() for word in BANNED_WORDS). -/
def isFiltered (content : String) : Bool :=
  BANNED_WORDS.any (fun w => containsSubL (lowerStr content) w.data)

/-- The cooldown test of on_message (bot.py lines 192-194): the record
has a last_time and (now - last_time).seconds < COMPUTE_COOLDOWN.
A Python timedelta's .seconds attribute is the seconds-within-day
component of the elapsed time, i.e. (now - t) % 86400. -/
def onCooldownB (r : Record) (now : Nat) : Bool :=
  match r.last_time with
  | some t => decide ((now - t) % 86400 < COMPUTE_COOLDOWN)
  | none => false

/-- The accrual and level-up step of on_message once past the filter and
cooldown checks (bot.py lines 198-210): award COMPUTE_PER_MESSAGE, bump
the message count, refresh last_time, then a SINGLE threshold check that
on overflow increments level once and resets compute to 0. Returns the
updated record and whether a level-up fired. -/
def awardMsg (r : Record) (now : Nat) : Record × Bool :=
  let r1 : Record :=
    { r with compute := r.compute + COMPUTE_PER_MESSAGE,
             messages := r.messages + 1,
             last_time := some now }
  let compute_needed := r1.level * LEVEL_MULTIPLIER
  if compute_needed ≤ r1.compute then
    ({ r1 with level := r1.level + 1, compute := 0 }, true)
  else
    (r1, false)

/-- The per-record behaviour of on_message after the content filter
(bot.py lines 188-210): on cooldown the record is untouched, otherwise
the accrual step runs. -/
def accrue (r : Record) (now : Nat) : Record × Bool :=
  if onCooldownB r now then (r, false)
  else awardMsg r now

/-- The per-record behaviour of the /sync command (bot.py lines 315-329):
reject if last_sync equals today, otherwise add the fixed bonus of 50 to
compute and set last_sync to today. No level settlement is performed on
this path in the source. Returns (record, claimed). -/
def syncClaim (r : Record) (today : String) : Record × Bool :=
  if r.last_sync = some today then (r, false)
  else
    let bonus := 50
    ({ r with compute := r.compute + bonus, last_sync := some today }, true)

/-- Modelled from the spec (§4.2 LevelEngine.settle), absent from the
source: while points ≥ level * LEVEL_MULTIPLIER, subtract the current
threshold and increment the level; returns the remaining points and the
final level. Used only to exhibit what the claims expect where the code
deviates. -/
def settle_spec (points level : Nat) : Nat × Nat :=
  if h : 0 < level ∧ level * LEVEL_MULTIPLIER ≤ points then
    settle_spec (points - level * LEVEL_MULTIPLIER) (level + 1)
  else
    (points, level)
termination_by points
decreasing_by
  simp only [LEVEL_MULTIPLIER] at h ⊢
  omega

/-- Source constant VERSION_TITLES (bot.py lines 34-41), listed in the
ascending key order that sorted(VERSION_TITLES.items()) produces. -/
def VERSION_TITLES : List (Nat × String) :=
  [(1, "v1.0 初期型号"), (5, "v1.5 稳定版本"), (10, "v2.0 迭代版本"),
   (20, "v2.5 增强版本"), (50, "v3.0 完全体"), (100, "v4.0 超越者")]

/-- The title resolver get_version (bot.py lines 78-84): start from the
prototype default and walk the sorted table, keeping the title of every
key ≤ level; the last kept title wins. -/
def get_version (level : Nat) : String :=
  VERSION_TITLES.foldl (fun version kv => if level ≥ kv.1 then kv.2 else version)
    "v0.9 原型"

/-- Tier index of each title in the spec's ascending table (§4.3), used
to state monotonicity of the resolver; 0 is the prototype default. -/
def titleRank (s : String) : Nat :=
  if s = "v4.0 超越者" then 6
  else if s = "v3.0 完全体" then 5
  else if s = "v2.5 增强版本" then 4
  else if s = "v2.0 迭代版本" then 3
  else if s = "v1.5 稳定版本" then 2
  else if s = "v1.0 初期型号" then 1
  else 0

/-- The store: the user_data mapping as an association list in insertion
order (Python dicts preserve insertion order). -/
def Store := List (String × Record)

/-- defaultdict read access user_data[uid]: the stored record, or the
default entry when the key is absent. -/
def getRec (store : List (String × Record)) (uid : String) : Record :=
  match store.lookup uid with
  | some r => r
  | none => defaultRecord

/-- The entry-creating side effect of a defaultdict access: an absent key
is materialised with the default entry (appended, preserving insertion
order); a present key leaves the mapping unchanged. -/
def touch (store : List (String × Record)) (uid : String) : List (String × Record) :=
  match store.lookup uid with
  | some _ => store
  | none => store ++ [(uid, defaultRecord)]

/-- Writing the mutated record back under its key. -/
def setRec : List (String × Record) → String → Record → List (String × Record)
  | [], uid, r => [(uid, r)]
  | (k, v) :: rest, uid, r =>
      if k = uid then (k, r) :: rest else (k, v) :: setRec rest uid r

/-- Outcome of the message handler for a non-bot message. -/
inductive MsgOutcome where
  | filtered
  | onCooldown
  | awarded (leveledUp : Bool)
deriving Repr, DecidableEq

/-- The on_message handler (bot.py lines 172-227) for a non-bot author:
content filter first (before any store access), then the defaultdict
access creates the entry, then the cooldown early-return (no mutation,
no save), else the accrual and single-step level check followed by
save_data(). The Bool component records whether save_data() ran. -/
def on_message (store : List (String × Record)) (uid content : String) (now : Nat) :
    List (String × Record) × MsgOutcome × Bool :=
  if isFiltered content then
    (store, MsgOutcome.filtered, false)
  else
    let store1 := touch store uid
    let r := getRec store uid
    if onCooldownB r now then
      (store1, MsgOutcome.onCooldown, false)
    else
      (setRec store1 uid (awardMsg r now).1, MsgOutcome.awarded (awardMsg r now).2, true)

/-- The /sync handler daily_sync (bot.py lines 312-357): defaultdict
access, same-date early return (no mutation, no save), else the bonus
award through syncClaim and save_data(). Returns
(store, claimed, saved). -/
def daily_sync (store : List (String × Record)) (uid today : String) :
    List (String × Record) × Bool × Bool :=
  let store1 := touch store uid
  let r := getRec store uid
  if (syncClaim r today).2 then
    (setRec store1 uid (syncClaim r today).1, true, true)
  else
    (store1, false, false)

/-- The data shown by the /status command (bot.py lines 231-274). -/
structure StatusView where
  level : Nat
  version : String
  messages : Nat
  compute : Nat
  compute_needed : Nat
deriving Repr, DecidableEq

/-- The /status handler (bot.py lines 231-274): a defaultdict access
(which lazily creates an absent record) and a pure read; no field of any
record is written and save_data() is never called on this path. -/
def status (store : List (String × Record)) (uid : String) :
    List (String × Record) × StatusView × Bool :=
  let store1 := touch store uid
  let data := getRec store uid
  (store1,
   { level := data.level, version := get_version data.level,
     messages := data.messages, compute := data.compute,
     compute_needed := data.level * LEVEL_MULTIPLIER },
   false)

/-- The leaderboard comparison as a Bool: entry a may come before entry b
iff the key (level, compute) of b is lexicographically ≤ that of a.
This is sorted(..., key=lambda x: (level, compute), reverse=True):
a stable descending sort on that key. -/
def lbGeb (a b : String × Record) : Bool :=
  decide (b.2.level < a.2.level ∨
    (b.2.level = a.2.level ∧ b.2.compute ≤ a.2.compute))

/-- The leaderboard ordering relation as a Prop. -/
def lbGe (a b : String × Record) : Prop := lbGeb a b = true

instance : DecidableRel lbGe := fun a b => instDecidableEqBool (lbGeb a b) true

instance : IsTotal (String × Record) lbGe := by
  constructor
  intro a b
  simp only [lbGe, lbGeb, decide_eq_true_eq]
  omega

instance : IsTrans (String × Record) lbGe := by
  constructor
  intro a b c
  simp only [lbGe, lbGeb, decide_eq_true_eq]
  omega

/-- The /leaderboard ranking (bot.py lines 279-283): a stable descending
sort of the store snapshot by (level, compute), truncated to the top 10.
Python's sorted is a stable sort and reverse=True reverses the key
comparison, not the tie order, which List.insertionSort with the lbGe
relation reproduces exactly. -/
def leaderboard (store : List (String × Record)) : List (String × Record) :=
  (List.insertionSort lbGe store).take 10

/-- The /leaderboard handler's effect on the store: it only reads a
snapshot; nothing is written and save_data() is never called. -/
def leaderboard_cmd (store : List (String × Record)) :
    List (String × Record) × List (String × Record) × Bool :=
  (store, leaderboard store, false)

/-- Source ROLES_CONFIG (bot.py lines 19-26), key → role name (the color
and numeric level entries are presentation data unused by the upgrade
logic). -/
def ROLES_CONFIG : List (String × String) :=
  [("protocol", "🤖 Protocol・协议"),
   ("awakened", "🟢 Awakened・觉醒者"),
   ("augmented", "🔵 Augmented・增强者"),
   ("vanguard", "🟠 Vanguard・先锋"),
   ("architect", "🔴 Architect・架构师"),
   ("core", "⚡ System Core・系统核心")]

/-- The guild's role names when provisioned from the bot's own
ROLES_CONFIG table. -/
def STANDARD_GUILD_ROLES : List String := ROLES_CONFIG.map Prod.snd

/-- The list literal of mutually exclusive mid-tier keys in the removal
loop of the upgrade handler (bot.py line 408). -/
def midKeys : List String := ["awakened", "augmented", "vanguard", "architect"]

/-- Python str.capitalize(): first character upper-cased, the rest
lower-cased (ASCII; the tier keys are ASCII). -/
def pyCapitalize (s : String) : String :=
  match s.data with
  | [] => ""
  | c :: cs => String.mk (c.toUpper :: cs.map Char.toLower)

/-- Whether a role name is one of the mutually exclusive mid-tier roles,
by the same capitalised-key substring test the source's removal loop
uses. -/
def isMidTierRole (r : String) : Bool :=
  midKeys.any (fun k => containsSubL r.data (pyCapitalize k).data)

/-- Result of the /upgrade command. -/
inductive UpgradeResult where
  | denied
  | invalidTier
  | roleNotFound
  | upgraded (role : String)
deriving Repr, DecidableEq

/-- One iteration of the removal loop of /upgrade (bot.py lines
407-411): if the ROLES_CONFIG key is one of the four mid-tier keys, look
up the guild role whose name contains the capitalised key and, when the
member holds it, remove it. -/
def removeTierStep (guildRoles : List String) (mr : List String)
    (kv : String × String) : List String :=
  if midKeys.contains kv.1 then
    match guildRoles.find? (fun r =>
        containsSubL r.data (pyCapitalize kv.1).data) with
    | some oldRole =>
        if mr.contains oldRole then mr.filter (fun y => y != oldRole) else mr
    | none => mr
  else mr

/-- The full removal loop of /upgrade: iterate removeTierStep over
ROLES_CONFIG in its declaration order. -/
def removeOldTiers (guildRoles memberRoles : List String) : List String :=
  ROLES_CONFIG.foldl (removeTierStep guildRoles) memberRoles

/-- The /upgrade handler (bot.py lines 383-426): administrator gate,
ROLES_CONFIG lookup of the requested clearance, discord.utils.find of the
target role by capitalised-key or configured-name substring, the removal
loop that strips every mid-tier role the member holds, then add_roles of
the target role (idempotent, as Discord role grants are set-like).
Member and guild roles are modelled by their names. Returns the member's
roles after the command and the result. -/
def upgrade (isAdmin : Bool) (guildRoles memberRoles : List String)
    (clearance : String) : List String × UpgradeResult :=
  if !isAdmin then
    (memberRoles, UpgradeResult.denied)
  else
    match ROLES_CONFIG.lookup clearance with
    | none => (memberRoles, UpgradeResult.invalidTier)
    | some cfgName =>
      match guildRoles.find? (fun r =>
          containsSubL r.data (pyCapitalize clearance).data ||
          containsSubL r.data cfgName.data) with
      | none => (memberRoles, UpgradeResult.roleNotFound)
      | some role =>
        let afterRemoval := removeOldTiers guildRoles memberRoles
        (if afterRemoval.contains role then afterRemoval else afterRemoval ++ [role],
         UpgradeResult.upgraded role)

/-- Conditional removal of one role name, the inner form of
removeTierStep: remove x when held, else leave the roles alone. -/
def remOne (mr : List String) (x : String) : List String :=
  if mr.contains x then mr.filter (fun y => y != x) else mr

/-- A record with the given level and compute and default remaining
fields, for concrete leaderboard examples. -/
def mkRec (level compute : Nat) : Record :=
  { compute := compute, level := level, last_time := none,
    messages := 0, last_sync := none }

/-! ## Shared evaluation lemmas for the spec-modelled settlement loop -/

/-- One consuming step of the spec settlement loop. -/
theorem settle_spec_pos {p l : Nat} (h : 0 < l ∧ l * LEVEL_MULTIPLIER ≤ p) :
    settle_spec p l = settle_spec (p - l * LEVEL_MULTIPLIER) (l + 1) := by
  rw [settle_spec.eq_def, dif_pos h]

/-- The terminating step of the spec settlement loop. -/
theorem settle_spec_neg {p l : Nat} (h : ¬(0 < l ∧ l * LEVEL_MULTIPLIER ≤ p)) :
    settle_spec p l = (p, l) := by
  rw [settle_spec.eq_def, dif_neg h]

/-! ## Claims -/

/-- C1: the claim asserts a settlement loop — a single award crossing N
thresholds raises the level by N and leaves the remainder — but the
source's on_message performs a SINGLE threshold check that resets compute
to 0 (bot.py lines 206-208). Failing input: a level-1 participant holding
300 compute (six daily bonuses, which never settle) sends one accepted
message: the code yields level 2 with compute 0, while the claimed loop
(modelled by settle_spec) yields level 3 with remainder 5 from the 305
points. -/
theorem C1_single_step_levelup_discards_surplus :
    awardMsg { compute := 300, level := 1, last_time := none,
               messages := 0, last_sync := none } 1000
      = ({ compute := 0, level := 2, last_time := some 1000,
           messages := 1, last_sync := none }, true)
    ∧ settle_spec (300 + COMPUTE_PER_MESSAGE) 1 = (5, 3) := by
  constructor
  · decide
  · rw [show 300 + COMPUTE_PER_MESSAGE = 305 from rfl,
      settle_spec_pos (by norm_num [LEVEL_MULTIPLIER]),
      show 305 - 1 * LEVEL_MULTIPLIER = 205 from rfl,
      settle_spec_pos (by norm_num [LEVEL_MULTIPLIER]),
      show 205 - 2 * LEVEL_MULTIPLIER = 5 from rfl,
      settle_spec_neg (by norm_num [LEVEL_MULTIPLIER])]

/-- C2: the claim asserts points < level * LEVEL_MULTIPLIER after any
single engine operation, including a daily-bonus claim; but the /sync
handler adds its bonus of 50 without any settlement (bot.py lines
326-328), so a level-1 participant holding 60 compute ends the claim at
compute 110 ≥ 100 = 1 * LEVEL_MULTIPLIER, violating the invariant. -/
theorem C2_sync_breaks_threshold_invariant :
    (syncClaim { compute := 60, level := 1, last_time := none,
                 messages := 0, last_sync := none } "2025-02-03").1
      = { compute := 110, level := 1, last_time := none,
          messages := 0, last_sync := some "2025-02-03" }
    ∧ ¬((syncClaim { compute := 60, level := 1, last_time := none,
                     messages := 0, last_sync := none } "2025-02-03").1.compute
        < (syncClaim { compute := 60, level := 1, last_time := none,
                       messages := 0, last_sync := none } "2025-02-03").1.level
          * LEVEL_MULTIPLIER) := by
  decide

/-- C3: the claim asserts the daily-bonus claim adds 50, THEN performs
level settlement, then records the date; the source's /sync handler adds
the bonus and records the date but performs no settlement at all (bot.py
lines 326-328). At a level-1 participant holding 60 compute the code
leaves level 1 with compute 110, while the claimed settlement (modelled
by settle_spec) of the 110 points yields level 2 with remainder 10. -/
theorem C3_sync_skips_settlement :
    syncClaim { compute := 60, level := 1, last_time := none,
                messages := 0, last_sync := none } "2025-01-02"
      = ({ compute := 110, level := 1, last_time := none,
           messages := 0, last_sync := some "2025-01-02" }, true)
    ∧ settle_spec 110 1 = (10, 2) := by
  constructor
  · decide
  · rw [settle_spec_pos (by norm_num [LEVEL_MULTIPLIER]),
      show 110 - 1 * LEVEL_MULTIPLIER = 10 from rfl,
      settle_spec_neg (by norm_num [LEVEL_MULTIPLIER])]

/-- C4: the claim asserts that any message at least COMPUTE_COOLDOWN
(60 s) after the last accepted one is accepted and awarded; the source
compares (now - last_time).seconds — the seconds-WITHIN-DAY component of
the timedelta, i.e. elapsed mod 86400 — against the cooldown (bot.py
line 194). A message exactly 86400 s (one full day) after the last one
has .seconds = 0 < 60 and is wrongly treated as on-cooldown: no award,
no state change, although 86400 ≥ 60. -/
theorem C4_cooldown_uses_seconds_component :
    onCooldownB { compute := 0, level := 1, last_time := some 0,
                  messages := 0, last_sync := none } 86400 = true
    ∧ accrue { compute := 0, level := 1, last_time := some 0,
               messages := 0, last_sync := none } 86400
      = ({ compute := 0, level := 1, last_time := some 0,
           messages := 0, last_sync := none }, false)
    ∧ COMPUTE_COOLDOWN ≤ 86400 - 0 := by
  decide

/-- C5: a daily-bonus claim on a fresh date succeeds; a second claim on
the same date is rejected and leaves the record exactly as the first
claim left it; a further claim on a different date succeeds again. -/
theorem C5_daily_claim_idempotent (r : Record) (d d2 : String)
    (h1 : r.last_sync ≠ some d) (h2 : d ≠ d2) :
    (syncClaim r d).2 = true
    ∧ syncClaim (syncClaim r d).1 d = ((syncClaim r d).1, false)
    ∧ (syncClaim (syncClaim r d).1 d2).2 = true := by
  simp [syncClaim, h1, h2]

/-- Witness for C5 at the default record and the dates 2025-03-01 and
2025-03-02. -/
theorem C5_daily_claim_idempotent_witness :
    defaultRecord.last_sync ≠ some "2025-03-01"
    ∧ "2025-03-01" ≠ ("2025-03-02" : String)
    ∧ ((syncClaim defaultRecord "2025-03-01").2 = true
       ∧ syncClaim (syncClaim defaultRecord "2025-03-01").1 "2025-03-01"
         = ((syncClaim defaultRecord "2025-03-01").1, false)
       ∧ (syncClaim (syncClaim defaultRecord "2025-03-01").1 "2025-03-02").2 = true) :=
  ⟨by decide, by decide,
   C5_daily_claim_idempotent defaultRecord "2025-03-01" "2025-03-02"
     (by decide) (by decide)⟩

/-- C6: a message whose content matches a banned term is rejected by the
filter before any store access: the store is returned unchanged, the
outcome is filtered, no points are awarded and save_data() is not
called. -/
theorem C6_content_filter_rejects (store : List (String × Record))
    (uid content : String) (now : Nat) (h : isFiltered content = true) :
    on_message store uid content now = (store, MsgOutcome.filtered, false) := by
  simp [on_message, h]

/-- Witness for C6 at a content equal to the first banned term. -/
theorem C6_content_filter_rejects_witness :
    isFiltered "广告词1" = true
    ∧ on_message [("u", defaultRecord)] "u" "广告词1" 7
      = ([("u", defaultRecord)], MsgOutcome.filtered, false) :=
  ⟨by decide, C6_content_filter_rejects [("u", defaultRecord)] "u" "广告词1" 7 (by decide)⟩

/-- C7: the leaderboard ranking orders the store by (level descending,
points descending): on A(level 3, 10 pts), B(level 3, 50 pts),
C(level 5, 0 pts) it returns C, B, A; it is a pure function (hence
deterministic and stable across repeated calls), returns at most 10
entries, its output is sorted under the descending-key relation, the
underlying sort is a permutation of the snapshot, and two records with
identical keys keep their insertion order. -/
theorem C7_leaderboard_ranking :
    leaderboard [("A", mkRec 3 10), ("B", mkRec 3 50), ("C", mkRec 5 0)]
      = [("C", mkRec 5 0), ("B", mkRec 3 50), ("A", mkRec 3 10)]
    ∧ (∀ store : List (String × Record), (leaderboard store).length ≤ 10)
    ∧ (∀ store : List (String × Record), List.Sorted lbGe (leaderboard store))
    ∧ (∀ store : List (String × Record), (List.insertionSort lbGe store).Perm store)
    ∧ leaderboard [("X", mkRec 2 7), ("Y", mkRec 2 7)]
      = [("X", mkRec 2 7), ("Y", mkRec 2 7)] := by
  refine ⟨by decide, ?_, ?_, ?_, by decide⟩
  · intro store
    exact List.length_take_le 10 _
  · intro store
    exact List.Pairwise.sublist (List.take_sublist 10 _)
      (List.sorted_insertionSort lbGe store)
  · intro store
    exact List.perm_insertionSort lbGe store

/-- The nested-conditional closed form of the title resolver: the title
of the highest table key ≤ level, with the prototype default below the
lowest key. -/
theorem get_version_closed (l : Nat) :
    get_version l =
      if 100 ≤ l then "v4.0 超越者"
      else if 50 ≤ l then "v3.0 完全体"
      else if 20 ≤ l then "v2.5 增强版本"
      else if 10 ≤ l then "v2.0 迭代版本"
      else if 5 ≤ l then "v1.5 稳定版本"
      else if 1 ≤ l then "v1.0 初期型号"
      else "v0.9 原型" := rfl

/-- C8: get_version is a pure total function of the level, returning the
title of the highest table key ≤ level on every interval of the table,
the prototype default below the smallest key, and its tier index is
monotone in the level. -/
theorem C8_title_resolver_monotone :
    (∀ a b : Nat, a ≤ b → titleRank (get_version a) ≤ titleRank (get_version b))
    ∧ (∀ l : Nat, l < 1 → get_version l = "v0.9 原型")
    ∧ (∀ l : Nat, 1 ≤ l → l < 5 → get_version l = "v1.0 初期型号")
    ∧ (∀ l : Nat, 5 ≤ l → l < 10 → get_version l = "v1.5 稳定版本")
    ∧ (∀ l : Nat, 10 ≤ l → l < 20 → get_version l = "v2.0 迭代版本")
    ∧ (∀ l : Nat, 20 ≤ l → l < 50 → get_version l = "v2.5 增强版本")
    ∧ (∀ l : Nat, 50 ≤ l → l < 100 → get_version l = "v3.0 完全体")
    ∧ (∀ l : Nat, 100 ≤ l → get_version l = "v4.0 超越者") := by
  refine ⟨?_, ?_, ?_, ?_, ?_, ?_, ?_, ?_⟩
  · intro a b hab
    rw [get_version_closed, get_version_closed]
    split_ifs <;> first | decide | (exfalso; omega)
  all_goals
    intro l h1
    try intro h2
    rw [get_version_closed]
    split_ifs <;> first | rfl | (exfalso; omega)

/-- Witness for C8 at levels 3 ≤ 7 and at level 0. -/
theorem C8_title_resolver_monotone_witness :
    ((3 : Nat) ≤ 7 ∧ titleRank (get_version 3) ≤ titleRank (get_version 7))
    ∧ ((0 : Nat) < 1 ∧ get_version 0 = "v0.9 原型") :=
  ⟨⟨by decide, C8_title_resolver_monotone.1 3 7 (by decide)⟩,
   ⟨by decide, C8_title_resolver_monotone.2.1 0 (by decide)⟩⟩

/-- C10: the /status handler never calls save_data() and its only store
effect is the lazy creation of a default record for an unseen id — an
existing id leaves the store untouched and every stored record keeps its
exact value; the /leaderboard handler leaves the store untouched and
never calls save_data(). -/
theorem C10_status_leaderboard_read_only :
    (∀ (store : List (String × Record)) (uid : String),
        (status store uid).2.2 = false)
    ∧ (∀ (store : List (String × Record)) (uid : String),
        (store.lookup uid).isSome → (status store uid).1 = store)
    ∧ (∀ (store : List (String × Record)) (uid : String),
        store.lookup uid = none →
          (status store uid).1 = store ++ [(uid, defaultRecord)])
    ∧ (∀ (store : List (String × Record)) (uid id0 : String) (r0 : Record),
        store.lookup id0 = some r0 → ((status store uid).1).lookup id0 = some r0)
    ∧ (∀ store : List (String × Record),
        leaderboard_cmd store = (store, leaderboard store, false)) := by
  refine ⟨?_, ?_, ?_, ?_, ?_⟩
  · intro store uid
    rfl
  · intro store uid h
    obtain ⟨r, hr⟩ := Option.isSome_iff_exists.mp h
    simp [status, touch, hr]
  · intro store uid h
    simp [status, touch, h]
  · intro store uid id0 r0 h
    simp only [status, touch]
    cases hl : store.lookup uid with
    | some r => exact h
    | none => simp [List.lookup_append, h]
  · intro store
    rfl

/-- Witness for C10 on a one-entry store: reading the present id leaves
the store unchanged; reading an absent id appends only the default
record; the stored record keeps its value. -/
theorem C10_status_leaderboard_read_only_witness :
    (([("u", mkRec 4 20)].lookup "u").isSome = true
      ∧ (status [("u", mkRec 4 20)] "u").1 = [("u", mkRec 4 20)])
    ∧ ([("u", mkRec 4 20)].lookup "v" = none
      ∧ (status [("u", mkRec 4 20)] "v").1
        = [("u", mkRec 4 20)] ++ [("v", defaultRecord)])
    ∧ ([("u", mkRec 4 20)].lookup "u" = some (mkRec 4 20)
      ∧ ((status [("u", mkRec 4 20)] "v").1).lookup "u" = some (mkRec 4 20)) :=
  ⟨⟨by decide, C10_status_leaderboard_read_only.2.1 [("u", mkRec 4 20)] "u" (by decide)⟩,
   ⟨by decide, C10_status_leaderboard_read_only.2.2.1 [("u", mkRec 4 20)] "v" (by decide)⟩,
   ⟨by decide, C10_status_leaderboard_read_only.2.2.2.1 [("u", mkRec 4 20)] "v" "u"
      (mkRec 4 20) (by decide)⟩⟩

/-- Conditional removal equals unconditional filtering: when the role is
not held the filter is the identity. -/
theorem remOne_eq_filter (mr : List String) (x : String) :
    remOne mr x = mr.filter (fun y => y != x) := by
  unfold remOne
  split
  · rfl
  · next h =>
    symm
    apply List.filter_eq_self.mpr
    intro a ha
    simp only [bne_iff_ne, ne_eq, decide_not, Bool.not_eq_eq_eq_not, Bool.not_true,
      decide_eq_false_iff_not]
    intro he
    subst he
    exact h (List.elem_iff.mpr ha)

/-- Membership after a conditional removal. -/
theorem mem_remOne {a x : String} {l : List String} (h : a ∈ remOne l x) :
    a ∈ l ∧ a ≠ x := by
  rw [remOne_eq_filter] at h
  have h2 := List.mem_filter.mp h
  exact ⟨h2.1, by simpa using h2.2⟩

/-- A list not containing an element reports contains = false. -/
theorem contains_eq_false_of_not_mem {x : String} {l : List String} (h : x ∉ l) :
    l.contains x = false := by
  cases hc : l.contains x
  · rfl
  · exact absurd (List.elem_iff.mp hc) h

/-- On the standard guild the removal loop is exactly the successive
conditional removal of the four mid-tier role names. -/
theorem removeOldTiers_std_eq (m : List String) :
    removeOldTiers STANDARD_GUILD_ROLES m
      = remOne (remOne (remOne (remOne m "🟢 Awakened・觉醒者") "🔵 Augmented・增强者")
          "🟠 Vanguard・先锋") "🔴 Architect・架构师" := rfl

/-- Everything surviving the removal loop was held before and is none of
the four mid-tier role names. -/
theorem mem_removeOldTiers_std {a : String} {m : List String}
    (h : a ∈ removeOldTiers STANDARD_GUILD_ROLES m) :
    a ∈ m ∧ a ≠ "🟢 Awakened・觉醒者" ∧ a ≠ "🔵 Augmented・增强者"
      ∧ a ≠ "🟠 Vanguard・先锋" ∧ a ≠ "🔴 Architect・架构师" := by
  rw [removeOldTiers_std_eq] at h
  obtain ⟨h3, harch⟩ := mem_remOne h
  obtain ⟨h2, hvan⟩ := mem_remOne h3
  obtain ⟨h1, haug⟩ := mem_remOne h2
  obtain ⟨hm, hawk⟩ := mem_remOne h1
  exact ⟨hm, hawk, haug, hvan, harch⟩

/-- After the removal loop a member whose roles come from the standard
guild holds no mid-tier role at all. -/
theorem no_midtier_after_removal {m : List String}
    (hm : ∀ r ∈ m, r ∈ STANDARD_GUILD_ROLES) :
    (removeOldTiers STANDARD_GUILD_ROLES m).filter (fun r => isMidTierRole r) = [] := by
  apply List.filter_eq_nil_iff.mpr
  intro a ha
  obtain ⟨hmem, hawk, haug, hvan, harch⟩ := mem_removeOldTiers_std ha
  have h6 := hm a hmem
  simp only [STANDARD_GUILD_ROLES, ROLES_CONFIG, List.map_cons, List.map_nil,
    List.mem_cons, List.not_mem_nil, or_false] at h6
  rcases h6 with h | h | h | h | h | h <;> subst h
  · decide
  · exact absurd rfl hawk
  · exact absurd rfl haug
  · exact absurd rfl hvan
  · exact absurd rfl harch
  · decide

/-- The granted role, being one of the four mid-tier names, is never
still present after the removal loop. -/
theorem target_not_in_removed {m : List String} {x : String}
    (hx : x = "🟢 Awakened・觉醒者" ∨ x = "🔵 Augmented・增强者"
      ∨ x = "🟠 Vanguard・先锋" ∨ x = "🔴 Architect・架构师") :
    (removeOldTiers STANDARD_GUILD_ROLES m).contains x = false := by
  apply contains_eq_false_of_not_mem
  intro hmem
  obtain ⟨_, hawk, haug, hvan, harch⟩ := mem_removeOldTiers_std hmem
  rcases hx with h | h | h | h <;> subst h
  exacts [absurd rfl hawk, absurd rfl haug, absurd rfl hvan, absurd rfl harch]

/-- C9: a non-administrative invoker is denied and the member's roles are
untouched; an administrative invoker requesting any of the offered
clearances on a member whose roles come from the standard guild succeeds,
and afterwards the member holds exactly one mid-tier role: the role of
the requested clearance. -/
theorem C9_upgrade_authorization :
    (∀ (g m : List String) (c : String),
        upgrade false g m c = (m, UpgradeResult.denied))
    ∧ (∀ c, c ∈ ["augmented", "vanguard", "architect"] →
        ∀ m : List String, (∀ r ∈ m, r ∈ STANDARD_GUILD_ROLES) →
          ∃ role,
            (upgrade true STANDARD_GUILD_ROLES m c).2 = UpgradeResult.upgraded role
            ∧ (upgrade true STANDARD_GUILD_ROLES m c).1.filter
                (fun r => isMidTierRole r) = [role]
            ∧ containsSubL role.data (pyCapitalize c).data = true) := by
  constructor
  · intro g m c
    rfl
  · intro c hc m hm
    have hfil := no_midtier_after_removal hm
    simp only [List.mem_cons, List.not_mem_nil, or_false] at hc
    rcases hc with h | h | h <;> subst h
    · have hu : upgrade true STANDARD_GUILD_ROLES m "augmented"
          = (if (removeOldTiers STANDARD_GUILD_ROLES m).contains "🔵 Augmented・增强者"
              then removeOldTiers STANDARD_GUILD_ROLES m
              else removeOldTiers STANDARD_GUILD_ROLES m ++ ["🔵 Augmented・增强者"],
            UpgradeResult.upgraded "🔵 Augmented・增强者") := rfl
      have hnc : (removeOldTiers STANDARD_GUILD_ROLES m).contains "🔵 Augmented・增强者"
          = false := target_not_in_removed (Or.inr (Or.inl rfl))
      refine ⟨"🔵 Augmented・增强者", ?_, ?_, by decide⟩
      · rw [hu]
      · rw [hu]
        simp only [hnc, Bool.false_eq_true, if_false, List.filter_append, hfil,
          List.nil_append]
        decide
    · have hu : upgrade true STANDARD_GUILD_ROLES m "vanguard"
          = (if (removeOldTiers STANDARD_GUILD_ROLES m).contains "🟠 Vanguard・先锋"
              then removeOldTiers STANDARD_GUILD_ROLES m
              else removeOldTiers STANDARD_GUILD_ROLES m ++ ["🟠 Vanguard・先锋"],
            UpgradeResult.upgraded "🟠 Vanguard・先锋") := rfl
      have hnc : (removeOldTiers STANDARD_GUILD_ROLES m).contains "🟠 Vanguard・先锋"
          = false := target_not_in_removed (Or.inr (Or.inr (Or.inl rfl)))
      refine ⟨"🟠 Vanguard・先锋", ?_, ?_, by decide⟩
      · rw [hu]
      · rw [hu]
        simp only [hnc, Bool.false_eq_true, if_false, List.filter_append, hfil,
          List.nil_append]
        decide
    · have hu : upgrade true STANDARD_GUILD_ROLES m "architect"
          = (if (removeOldTiers STANDARD_GUILD_ROLES m).contains "🔴 Architect・架构师"
              then removeOldTiers STANDARD_GUILD_ROLES m
              else removeOldTiers STANDARD_GUILD_ROLES m ++ ["🔴 Architect・架构师"],
            UpgradeResult.upgraded "🔴 Architect・架构师") := rfl
      have hnc : (removeOldTiers STANDARD_GUILD_ROLES m).contains "🔴 Architect・架构师"
          = false := target_not_in_removed (Or.inr (Or.inr (Or.inr rfl)))
      refine ⟨"🔴 Architect・架构师", ?_, ?_, by decide⟩
      · rw [hu]
      · rw [hu]
        simp only [hnc, Bool.false_eq_true, if_false, List.filter_append, hfil,
          List.nil_append]
        decide

/-- Witness for C9: an administrator upgrades a member holding Awakened
and System Core to augmented; afterwards the member's only mid-tier role
is the Augmented role. -/
theorem C9_upgrade_authorization_witness :
    ("augmented" ∈ (["augmented", "vanguard", "architect"] : List String))
    ∧ (∀ r ∈ (["🟢 Awakened・觉醒者", "⚡ System Core・系统核心"] : List String),
        r ∈ STANDARD_GUILD_ROLES)
    ∧ (∃ role,
        (upgrade true STANDARD_GUILD_ROLES
            ["🟢 Awakened・觉醒者", "⚡ System Core・系统核心"] "augmented").2
          = UpgradeResult.upgraded role
        ∧ (upgrade true STANDARD_GUILD_ROLES
            ["🟢 Awakened・觉醒者", "⚡ System Core・系统核心"] "augmented").1.filter
            (fun r => isMidTierRole r) = [role]
        ∧ containsSubL role.data (pyCapitalize "augmented").data = true) :=
  ⟨by decide, by decide,
   C9_upgrade_authorization.2 "augmented" (by decide)
     ["🟢 Awakened・觉醒者", "⚡ System Core・系统核心"] (by decide)⟩

end XiuHe
